import Mathlib

/-!
Shallow embedding of the RustPython command-line launcher (`src/main.rs`):
settings resolution, execution-mode dispatch, script resolution, and the
interactive shell state machine, together with theorems checking the
specification's claims against it.
-/

namespace RustPython

deriving instance DecidableEq for Except

/-- Result of `clap` argument parsing (`ArgMatches`), restricted to the
arguments the launcher consults.  A value-taking argument that is present
carries at least one value (clap `min_values(1)`), so it is modelled as
`Option (String × List String)`: the first value and the trailing values.
For the repeatable counting flags we keep `occurrences_of` directly;
`is_present` is `occurrences > 0`. -/
structure ArgMatches where
  script : Option (String × List String)
  m : Option (String × List String)
  c : Option (String × List String)
  optimizeOccurrences : Nat
  verboseOccurrences : Nat
  debugFlag : Bool
  quietFlag : Bool
  inspectFlag : Bool
  noUserSiteFlag : Bool
  noSiteFlag : Bool
  dontWriteBytecodeFlag : Bool
  ignoreEnvironmentFlag : Bool

/-- The environment snapshot, seen through the three access patterns the
launcher uses:
* `flagPresent name` models `env::var_os(name).is_some()` for the
  presence-only boolean variables;
* `intVar name` models `env::var(name).ok()` for `PYTHONOPTIMIZE` and
  `PYTHONVERBOSE` (`none` when the variable is unset or not valid unicode);
* `pathVar name` models `env::var_os(name)` followed by `env::split_paths`:
  `none` when the variable is unset, otherwise the list of segments, where
  a segment is `none` exactly when it cannot be decoded as valid unicode. -/
structure Env where
  flagPresent : String → Bool
  intVar : String → Option String
  pathVar : String → Option (List (Option String))

/-- A `panic!` raised during settings resolution: either the
`"{} isn't valid unicode"` panic inside `get_paths`, or the
`occurrences_of(..).try_into().unwrap()` on a flag repetition count that
does not fit in `u8`. -/
inductive SettingsPanic
  | invalidUnicode (varName : String)
  | occurrencesOverflow (flagName : String)
  deriving DecidableEq

/-- Decode the split segments of a path-list variable left to right; an
undecodable segment triggers the `panic!("{} isn't valid unicode", name)`
of `get_paths`. -/
def decodeSegments (name : String) : List (Option String) → Except SettingsPanic (List String)
  | [] => .ok []
  | some s :: rest => (decodeSegments name rest).map (fun l => s :: l)
  | none :: _ => .error (.invalidUnicode name)

/-- `get_paths`: retrieve a sequence of paths from an environment variable. -/
def get_paths (env : Env) (name : String) : Except SettingsPanic (List String) :=
  match env.pathVar name with
  | some segments => decodeSegments name segments
  | none => .ok []

/-- Model of Rust `u8::from_str`: an optional leading plus sign, then one
or more ascii digits, with a value of at most `255`; anything else fails. -/
def u8FromStr (s : String) : Option Nat :=
  let ds := match s.data with
    | '+' :: rest => rest
    | cs => cs
  if ds = [] then none
  else if ds.all Char.isDigit then
    let v := ds.foldl (fun acc c => acc * 10 + (c.toNat - 48)) 0
    if v ≤ 255 then some v else none
  else none

/-- The error case of `std::env::var` as observed by `get_env_var_value`
(the caller only distinguishes `Ok` from `Err`). -/
inductive VarError
  | notPresent
  deriving DecidableEq

/-- `get_env_var_value`: get an environment variable and turn it into an
integer; a set value that does not parse as `u8` becomes `1`. -/
def get_env_var_value (env : Env) (name : String) : Except VarError Nat :=
  match env.intVar name with
  | some value => .ok ((u8FromStr value).getD 1)
  | none => .error .notPresent

/-- Modelled from the spec: `PySettings` lives in the collaborator crate
`rustpython_vm`, which is not part of this repository; it is restricted
here to the fields the launcher sets, and its `Default` (spec section 3)
gives an empty `path_list`, `false` for every boolean, level `0` for both
integers and an empty `argv`. -/
structure PySettings where
  ignore_environment : Bool := false
  path_list : List String := []
  debug : Bool := false
  inspect : Bool := false
  optimize : Nat := 0
  verbose : Nat := 0
  no_site : Bool := false
  no_user_site : Bool := false
  quiet : Bool := false
  dont_write_bytecode : Bool := false
  argv : List String := []
  deriving DecidableEq

/-- The `argv` computation at the end of `create_settings`: the positional
script values verbatim; otherwise `"PLACEHOLDER"` followed by the module
argument's trailing values (`skip(1)`); otherwise `"-c"` followed by the
command argument's trailing values (`skip(1)`); otherwise empty. -/
def resolve_argv (ms : ArgMatches) : List String :=
  match ms.script with
  | some (s, args) => s :: args
  | none =>
    match ms.m with
    | some (_, args) => "PLACEHOLDER" :: args
    | none =>
      match ms.c with
      | some (_, args) => "-c" :: args
      | none => []

/-- `create_settings`: build `PySettings` from the command line arguments
and the environment.  A `panic!` inside `get_paths`, or an occurrence
count that does not fit `u8`, is the `.error` case.  The imperative
sequence of field updates of the source is rendered as one record value
over the modelled default. -/
def create_settings (ms : ArgMatches) (env : Env) : Except SettingsPanic PySettings :=
  let ignore_environment := ms.ignoreEnvironmentFlag
  let envPathsE : Except SettingsPanic (List String) :=
    if ignore_environment then .ok []
    else
      match get_paths env "RUSTPYTHONPATH" with
      | .error e => .error e
      | .ok p1 =>
        match get_paths env "PYTHONPATH" with
        | .error e => .error e
        | .ok p2 => .ok (p1 ++ p2)
  match envPathsE with
  | .error e => .error e
  | .ok envPaths =>
    if ms.optimizeOccurrences > 255 then .error (.occurrencesOverflow "optimize")
    else if ms.verboseOccurrences > 255 then .error (.occurrencesOverflow "verbose")
    else .ok
      { ignore_environment := ignore_environment
        path_list := "" :: envPaths
        debug := ms.debugFlag || (!ignore_environment && env.flagPresent "PYTHONDEBUG")
        inspect := ms.inspectFlag || (!ignore_environment && env.flagPresent "PYTHONINSPECT")
        optimize :=
          if ms.optimizeOccurrences > 0 then ms.optimizeOccurrences
          else if !ignore_environment then
            match get_env_var_value env "PYTHONOPTIMIZE" with
            | .ok value => value
            | .error _ => 0
          else 0
        verbose :=
          if ms.verboseOccurrences > 0 then ms.verboseOccurrences
          else if !ignore_environment then
            match get_env_var_value env "PYTHONVERBOSE" with
            | .ok value => value
            | .error _ => 0
          else 0
        no_site := ms.noSiteFlag
        no_user_site :=
          ms.noUserSiteFlag || (!ignore_environment && env.flagPresent "PYTHONNOUSERSITE")
        quiet := ms.quietFlag
        dont_write_bytecode :=
          ms.dontWriteBytecodeFlag
            || (!ignore_environment && env.flagPresent "PYTHONDONTWRITEBYTECODE")
        argv := resolve_argv ms }

/-- The four execution strategies of the launcher. -/
inductive ExecutionMode
  | command (text : String)
  | module (text : String)
  | script (path : String)
  | interactive
  deriving DecidableEq

/-- The execution-source dispatch of `run_rustpython`: `-c` first, then
`-m`, then the positional script, then the interactive shell
(`value_of` yields the first value of a present argument). -/
def selectMode (ms : ArgMatches) : ExecutionMode :=
  match ms.c with
  | some (cmd, _) => .command cmd
  | none =>
    match ms.m with
    | some (moduleName, _) => .module moduleName
    | none =>
      match ms.script with
      | some (filename, _) => .script filename
      | none => .interactive

/-- How the launcher process can terminate abnormally: an explicit
`process::exit(code)`, or an unwinding `panic!` (whose process status is
the Rust panic status, which is not an explicitly chosen exit code and in
particular is not produced by any `process::exit(1)` call). -/
inductive LaunchAbort
  | exit (code : Nat)
  | panicked (message : String)
  deriving DecidableEq

/-- The message of a settings-resolution panic (rendered without the
backquotes of the stock unwrap text). -/
def settingsPanicMessage : SettingsPanic → String
  | .invalidUnicode name => name ++ " isn't valid unicode"
  | .occurrencesOverflow _ => "called Result::unwrap() on an Err value: TryFromIntError(())"

/-- The launcher up to dispatch (`main` then `run_rustpython`): resolve the
settings — a settings `panic!` aborts the process before any interpreter is
constructed and before any execution — then select the execution mode. -/
inductive MainOutcome
  | abortedBeforeExecution (abort : LaunchAbort)
  | dispatched (settings : PySettings) (mode : ExecutionMode)
  deriving DecidableEq

/-- `main` up to dispatch: `create_settings`, then construction of the
interpreter and mode selection as in `run_rustpython`. -/
def launch (ms : ArgMatches) (env : Env) : MainOutcome :=
  match create_settings ms env with
  | .error p => .abortedBeforeExecution (.panicked (settingsPanicMessage p))
  | .ok s => .dispatched s (selectMode ms)

/-- The `std::path` operations `run_script` uses, as an abstract model of
the external standard library: `join` is `PathBuf::join`, `parent` is
`PathBuf::parent` composed with the string conversions of the source. -/
structure PathModel where
  join : String → String → String
  parent : String → String

/-- The filesystem, seen through the three queries `run_script` makes. -/
structure FileSystem where
  is_file : String → Bool
  is_dir : String → Bool
  read_file : String → Except String String

/-- The message of the `error!` before `process::exit(1)` when a directory
argument contains no entry-point file. -/
def cantFindMainMsg (path : String) : String :=
  "can't find '__main__' module in '" ++ path ++ "'"

/-- The message of the `error!` before `process::exit(1)` when the script
path names neither a file nor a directory. -/
def cantOpenMsg (path : String) : String :=
  "can't open file '" ++ path ++ "': No such file or directory"

/-- The message of the `error!` before `process::exit(1)` when reading the
resolved file fails. -/
def failedReadingMsg (path err : String) : String :=
  "Failed reading file '" ++ path ++ "': " ++ err

/-- The observable result of `run_script`: a fatal `process::exit` with its
code and message, or execution of the read source with the resolved source
path, under the `sys.path` as mutated by the `insert(0, dir)` call. -/
inductive RunScriptOutcome
  | fatal (code : Nat) (message : String)
  | ran (sys_path : List String) (source_path : String) (source : String)
  deriving DecidableEq

/-- `run_script`: resolve the script path (a regular file directly; a
directory through its `__main__.py`, whose absence is fatal; anything else
fatal), insert the resolved file's parent directory at the front of
`sys.path`, then read and run the file. -/
def run_script (pm : PathModel) (fs : FileSystem) (sys_path : List String)
    (script_file : String) : RunScriptOutcome :=
  let resolvedE : Except (Nat × String) String :=
    if fs.is_file script_file then .ok script_file
    else if fs.is_dir script_file then
      let main_file_path := pm.join script_file "__main__.py"
      if fs.is_file main_file_path then .ok main_file_path
      else .error (1, cantFindMainMsg script_file)
    else .error (1, cantOpenMsg script_file)
  match resolvedE with
  | .error (c, msg) => .fatal c msg
  | .ok file_path =>
    let dir := pm.parent file_path
    let sys_path := dir :: sys_path
    match fs.read_file file_path with
    | .ok source => .ran sys_path file_path source
    | .error err => .fatal 1 (failedReadingMsg file_path err)

/-- A value produced by executing a code object; the collaborator's
interned `None` is the `none` constructor, so `vm.is_none` is the match
against it. -/
inductive PyValue
  | none
  | val (n : Nat)
  deriving DecidableEq

/-- The session's persistent global scope, as the association list of its
bindings; `set_item` adds a binding at the front. -/
abbrev Scope := List (String × PyValue)

/-- `scope.globals.set_item key value`. -/
def Scope.set_item (scope : Scope) (key : String) (value : PyValue) : Scope :=
  (key, value) :: scope

/-- The outcome of `vm.compile(source, Mode::Single, "<stdin>")`: a code
object, the end-of-file parse error
(`CompileErrorType::Parse(ParseErrorType::EOF)`, the incomplete-input
signal), or any other compile error. -/
inductive CompileOutcome
  | ok (code : Nat)
  | eofError
  | otherError (err : Nat)
  deriving DecidableEq

/-- The outcome of `vm.run_code_obj`. -/
inductive RunOutcome
  | ok (value : PyValue)
  | err (exc : Nat)
  deriving DecidableEq

/-- The collaborator virtual machine, at the interface the shell uses:
single-statement compilation of a source string, execution of a compiled
code object against a scope (returning an outcome and the possibly
mutated scope), conversion of a compile error into a syntax-error
exception object, and the empty `KeyboardInterrupt` exception built in
the interrupted branch.  Code objects and exceptions are abstract ids. -/
structure VM where
  compile : String → CompileOutcome
  run_code_obj : Nat → Scope → RunOutcome × Scope
  new_syntax_error : Nat → Nat
  keyboard_interrupt : Nat

/-- `ShellExecResult` of the source. -/
inductive ShellExecResult
  | Ok
  | PyErr (exc : Nat)
  | Continue
  deriving DecidableEq

/-- The result of `shell_exec`, instrumented with the scope it leaves
behind and the code object it passed to `run_code_obj`, if any. -/
structure ShellExecOut where
  result : ShellExecResult
  scope : Scope
  ran : Option Nat
  deriving DecidableEq

/-- `shell_exec`: compile `source` in single-statement mode; on success run
it, saving a non-None result value under the key `"_"`; an EOF parse error
is the incomplete-input outcome `Continue`; any other compile error
becomes a syntax-error exception. -/
def shell_exec (vm : VM) (source : String) (scope : Scope) : ShellExecOut :=
  match vm.compile source with
  | .ok code =>
    match vm.run_code_obj code scope with
    | (.ok value, scope1) =>
      if value ≠ PyValue.none then
        { result := .Ok, scope := scope1.set_item "_" value, ran := some code }
      else
        { result := .Ok, scope := scope1, ran := some code }
    | (.err e, scope1) => { result := .PyErr e, scope := scope1, ran := some code }
  | .eofError => { result := .Continue, scope := scope, ran := none }
  | .otherError e =>
    { result := .PyErr (vm.new_syntax_error e), scope := scope, ran := none }

/-- The outcome of one blocking `repl.readline` call. -/
inductive ReadlineEvent
  | line (text : String)
  | interrupted
  | endOfInput
  | otherError (code : Nat)
  deriving DecidableEq

/-- The observable side effects of the shell, in emission order. -/
inductive ShellEffect
  | printWelcomeBanner
  | printNoPreviousHistory
  | printException (exc : Nat)
  | logReadlineError (code : Nat)
  | panicked
  deriving DecidableEq

/-- Whether the loop body falls to the next iteration or breaks out. -/
inductive LoopAction
  | next
  | stop
  deriving DecidableEq

/-- The mutable state of the `run_shell` loop: the accumulated `input`
buffer, the `continuing` flag, the session scope and the editor history
entries added so far. -/
structure ShellState where
  input : String
  continuing : Bool
  scope : Scope
  history : List String
  deriving DecidableEq

/-- The result of one iteration of the loop body: the next state, whether
the loop continues, the exception handed to `print_exception` (if any),
the read error logged before breaking (if any), the source submitted to
`shell_exec` (if any) and the code object executed (if any). -/
structure IterResult where
  state : ShellState
  action : LoopAction
  reported : Option Nat
  logged : Option Nat
  compiled : Option String
  ran : Option Nat
  deriving DecidableEq

/-- One iteration of the (non-redox) `run_shell` loop body, on the outcome
of `repl.readline`. -/
def shell_step (vm : VM) (st : ShellState) (ev : ReadlineEvent) : IterResult :=
  match ev with
  | .line line =>
    let history := st.history ++ [line.trimRight]
    let stop_continuing := line.isEmpty
    let input := (if st.input.isEmpty then line else st.input ++ line) ++ "\n"
    if st.continuing && !stop_continuing then
      { state := { input := input, continuing := true, scope := st.scope, history := history }
        action := .next, reported := none, logged := none, compiled := none, ran := none }
    else
      let continuing := false
      let out := shell_exec vm input st.scope
      match out.result with
      | .Ok =>
        { state :=
            { input := "", continuing := continuing, scope := out.scope, history := history }
          action := .next, reported := none, logged := none, compiled := some input
          ran := out.ran }
      | .Continue =>
        { state :=
            { input := input, continuing := true, scope := out.scope, history := history }
          action := .next, reported := none, logged := none, compiled := some input
          ran := out.ran }
      | .PyErr e =>
        { state :=
            { input := "", continuing := continuing, scope := out.scope, history := history }
          action := .next, reported := some e, logged := none, compiled := some input
          ran := out.ran }
  | .interrupted =>
    { state := { input := "", continuing := false, scope := st.scope, history := st.history }
      action := .next, reported := some vm.keyboard_interrupt, logged := none
      compiled := none, ran := none }
  | .endOfInput =>
    { state := st, action := .stop, reported := none, logged := none
      compiled := none, ran := none }
  | .otherError e =>
    { state := st, action := .stop, reported := none, logged := some e
      compiled := none, ran := none }

/-- The effects printed during one iteration. -/
def iterEffects (r : IterResult) : List ShellEffect :=
  (match r.logged with
   | some e => [ShellEffect.logReadlineError e]
   | none => [])
  ++ (match r.reported with
      | some e => [ShellEffect.printException e]
      | none => [])

/-- The `run_shell` read-eval-print loop, driven by a script of readline
outcomes (the blocking reader, modelled as the scripted reader of the
spec's design notes).  Returns the state after the loop ends and the
effects emitted, in order. -/
def run_loop (vm : VM) : ShellState → List ReadlineEvent → ShellState × List ShellEffect
  | st, [] => (st, [])
  | st, ev :: rest =>
    let r := shell_step vm st ev
    match r.action with
    | .stop => (r.state, iterEffects r)
    | .next =>
      let next := run_loop vm r.state rest
      (next.1, iterEffects r ++ next.2)

/-- The history file collaborator, at the interface `run_shell` uses:
whether the history path already exists, whether it has a parent
directory, and whether `create_dir_all`, `load_history` and
`save_history` succeed. -/
structure HistorySink where
  path_exists : Bool
  has_parent : Bool
  create_dir_ok : Bool
  load_ok : Bool
  save_ok : Bool
  deriving DecidableEq

/-- `run_shell` (non-redox): print the welcome banner unconditionally,
prepare the history path (`create_dir_all(parent).unwrap()` when the file
does not yet exist — a failure is an unwinding panic), best-effort-load
the history (a failure only prints a notice), run the loop, then
`repl.save_history(path).unwrap()` — a failed save is an unwinding panic.
The second component is `some finalState` on a normal `Ok(())` return and
`none` when the process panicked. -/
def run_shell (vm : VM) (hist : HistorySink) (scope : Scope)
    (events : List ReadlineEvent) : List ShellEffect × Option ShellState :=
  let banner := [ShellEffect.printWelcomeBanner]
  if !hist.path_exists && hist.has_parent && !hist.create_dir_ok then
    (banner ++ [ShellEffect.panicked], none)
  else
    let loadMsg := if hist.load_ok then [] else [ShellEffect.printNoPreviousHistory]
    let looped :=
      run_loop vm { input := "", continuing := false, scope := scope, history := [] } events
    if hist.save_ok then (banner ++ loadMsg ++ looped.2, some looped.1)
    else (banner ++ loadMsg ++ looped.2 ++ [ShellEffect.panicked], none)

/-- The settings record `create_settings` produces under `-E`. -/
def resolvedIgnore (ms : ArgMatches) : PySettings :=
  { ignore_environment := true
    path_list := [""]
    debug := ms.debugFlag
    inspect := ms.inspectFlag
    optimize := if ms.optimizeOccurrences > 0 then ms.optimizeOccurrences else 0
    verbose := if ms.verboseOccurrences > 0 then ms.verboseOccurrences else 0
    no_site := ms.noSiteFlag
    no_user_site := ms.noUserSiteFlag
    quiet := ms.quietFlag
    dont_write_bytecode := ms.dontWriteBytecodeFlag
    argv := resolve_argv ms }

/-- The settings record `create_settings` produces when the environment is
consulted and both path variables decode to `p1` and `p2`. -/
def resolvedWithEnv (ms : ArgMatches) (env : Env) (p1 p2 : List String) : PySettings :=
  { ignore_environment := false
    path_list := "" :: (p1 ++ p2)
    debug := ms.debugFlag || env.flagPresent "PYTHONDEBUG"
    inspect := ms.inspectFlag || env.flagPresent "PYTHONINSPECT"
    optimize :=
      if ms.optimizeOccurrences > 0 then ms.optimizeOccurrences
      else
        match get_env_var_value env "PYTHONOPTIMIZE" with
        | .ok value => value
        | .error _ => 0
    verbose :=
      if ms.verboseOccurrences > 0 then ms.verboseOccurrences
      else
        match get_env_var_value env "PYTHONVERBOSE" with
        | .ok value => value
        | .error _ => 0
    no_site := ms.noSiteFlag
    no_user_site := ms.noUserSiteFlag || env.flagPresent "PYTHONNOUSERSITE"
    quiet := ms.quietFlag
    dont_write_bytecode := ms.dontWriteBytecodeFlag || env.flagPresent "PYTHONDONTWRITEBYTECODE"
    argv := resolve_argv ms }

/-- A parse with no execution-source arguments and no flags. -/
def msPlain : ArgMatches :=
  { script := none, m := none, c := none
    optimizeOccurrences := 0, verboseOccurrences := 0
    debugFlag := false, quietFlag := false, inspectFlag := false
    noUserSiteFlag := false, noSiteFlag := false
    dontWriteBytecodeFlag := false, ignoreEnvironmentFlag := false }

/-- A parse with only `-q`. -/
def msQuiet : ArgMatches := { msPlain with quietFlag := true }

/-- A parse with `-c "print(1)" tail`. -/
def msCommand : ArgMatches := { msPlain with c := some ("print(1)", ["tail"]) }

/-- An environment with `PYTHONDEBUG` set, a malformed `PYTHONOPTIMIZE`, a
well-formed `PYTHONVERBOSE` and decodable path variables. -/
def envSample : Env :=
  { flagPresent := fun name => name == "PYTHONDEBUG"
    intVar := fun name =>
      if name == "PYTHONOPTIMIZE" then some "abc"
      else if name == "PYTHONVERBOSE" then some "7"
      else none
    pathVar := fun name =>
      if name == "RUSTPYTHONPATH" then some [some "/a"]
      else if name == "PYTHONPATH" then some [some "/b", some "/c"]
      else none }

/-- The settings `create_settings` resolves from `msPlain` and `envSample`. -/
def settingsSample : PySettings :=
  { ignore_environment := false
    path_list := ["", "/a", "/b", "/c"]
    debug := true
    inspect := false
    optimize := 1
    verbose := 7
    no_site := false
    no_user_site := false
    quiet := false
    dont_write_bytecode := false
    argv := [] }

/-- The settings `create_settings` resolves from `msQuiet` and `envSample`. -/
def settingsQuietSample : PySettings := { settingsSample with quiet := true }

/-- An environment whose `RUSTPYTHONPATH` contains an undecodable segment. -/
def envBadPath : Env :=
  { flagPresent := fun _ => false
    intVar := fun _ => none
    pathVar := fun name =>
      if name == "RUSTPYTHONPATH" then some [some "/lib", none] else none }

/-- A sample model of the path operations. -/
def pmSample : PathModel :=
  { join := fun a b => a ++ "/" ++ b, parent := fun _ => "parentdir" }

/-- A filesystem with a regular file `f.py` and a directory `d` that lacks
`__main__.py`. -/
def fsSample : FileSystem :=
  { is_file := fun p => p == "f.py"
    is_dir := fun p => p == "d"
    read_file := fun p => if p == "f.py" then .ok "print(1)" else .error "NotFound" }

/-- A collaborator compiler that always reports incomplete input. -/
def vmEof : VM :=
  { compile := fun _ => .eofError
    run_code_obj := fun _ scope => (.ok PyValue.none, scope)
    new_syntax_error := fun e => e + 1000
    keyboard_interrupt := 999 }

/-- A collaborator that compiles everything to code object `7` and runs it
to the non-None value `2`. -/
def vmVal : VM :=
  { compile := fun _ => .ok 7
    run_code_obj := fun _ scope => (.ok (PyValue.val 2), scope)
    new_syntax_error := fun e => e + 1000
    keyboard_interrupt := 999 }

/-- A history collaborator whose save fails. -/
def histSaveFail : HistorySink :=
  { path_exists := true, has_parent := true, create_dir_ok := true
    load_ok := true, save_ok := false }

/-- A history collaborator for which everything succeeds. -/
def histOk : HistorySink :=
  { path_exists := true, has_parent := true, create_dir_ok := true
    load_ok := true, save_ok := true }

/-- A continuation-state session whose buffer holds an open compound
statement. -/
def stContinuing : ShellState :=
  { input := "if True:\n", continuing := true, scope := [], history := [] }

/-- The initial session state over an empty scope. -/
def stFresh : ShellState :=
  { input := "", continuing := false, scope := [], history := [] }

theorem data_append_eq (s t : String) : (s ++ t).data = s.data ++ t.data := by
  cases s; cases t; rfl

/-- The two fatal script-resolution messages are distinguishable, whatever
paths they mention. -/
theorem script_error_messages_distinct (a b : String) : cantFindMainMsg a ≠ cantOpenMsg b := by
  intro h
  have h2 := congrArg (fun s => s.data.get? 6) h
  simp only [cantFindMainMsg, cantOpenMsg, data_append_eq, List.append_assoc] at h2
  rw [List.get?_append (by decide), List.get?_append (by decide)] at h2
  exact absurd h2 (by decide)

/-- An undecodable segment makes `decodeSegments` panic with the
`isn't valid unicode` message for its variable. -/
theorem decodeSegments_error (name : String) (segs : List (Option String))
    (hbad : none ∈ segs) : decodeSegments name segs = .error (.invalidUnicode name) := by
  induction segs with
  | nil => cases hbad
  | cons hd tl ih =>
    cases hd with
    | none => rfl
    | some s =>
      rcases List.mem_cons.mp hbad with h | h
      · exact absurd h (by simp)
      · simp only [decodeSegments, ih h, Except.map]

/-- `create_settings` under `-E`: the environment is not consulted. -/
theorem create_settings_ignore (ms : ArgMatches) (env : Env)
    (hi : ms.ignoreEnvironmentFlag = true)
    (ho : ms.optimizeOccurrences ≤ 255) (hv : ms.verboseOccurrences ≤ 255) :
    create_settings ms env = .ok (resolvedIgnore ms) := by
  simp [create_settings, resolvedIgnore, hi, Nat.not_lt.mpr ho, Nat.not_lt.mpr hv]

/-- `create_settings` without `-E`, when both path variables decode. -/
theorem create_settings_noignore (ms : ArgMatches) (env : Env) (p1 p2 : List String)
    (hi : ms.ignoreEnvironmentFlag = false)
    (hp1 : get_paths env "RUSTPYTHONPATH" = .ok p1)
    (hp2 : get_paths env "PYTHONPATH" = .ok p2)
    (ho : ms.optimizeOccurrences ≤ 255) (hv : ms.verboseOccurrences ≤ 255) :
    create_settings ms env = .ok (resolvedWithEnv ms env p1 p2) := by
  simp [create_settings, resolvedWithEnv, hi, hp1, hp2, Nat.not_lt.mpr ho, Nat.not_lt.mpr hv]

/-- Success of `create_settings` forces the occurrence counts to fit `u8`
and, without `-E`, both path variables to decode. -/
theorem create_settings_ok_inv (ms : ArgMatches) (env : Env) (s : PySettings)
    (h : create_settings ms env = .ok s) :
    ms.optimizeOccurrences ≤ 255 ∧ ms.verboseOccurrences ≤ 255 ∧
      (ms.ignoreEnvironmentFlag = false →
        ∃ p1 p2, get_paths env "RUSTPYTHONPATH" = .ok p1 ∧ get_paths env "PYTHONPATH" = .ok p2) := by
  unfold create_settings at h
  by_cases hi : ms.ignoreEnvironmentFlag = true
  · by_cases ho : 255 < ms.optimizeOccurrences
    · simp [hi, ho] at h
    · by_cases hv : 255 < ms.verboseOccurrences
      · simp [hi, ho, hv] at h
      · exact ⟨Nat.not_lt.mp ho, Nat.not_lt.mp hv,
          fun hcon => Bool.noConfusion (hi.symm.trans hcon)⟩
  · have hi' : ms.ignoreEnvironmentFlag = false := by
      revert hi; cases ms.ignoreEnvironmentFlag <;> simp
    rcases hR : get_paths env "RUSTPYTHONPATH" with eR | p1
    · simp [hi', hR] at h
    · rcases hP : get_paths env "PYTHONPATH" with eP | p2
      · simp [hi', hR, hP] at h
      · by_cases ho : 255 < ms.optimizeOccurrences
        · simp [hi', hR, hP, ho] at h
        · by_cases hv : 255 < ms.verboseOccurrences
          · simp [hi', hR, hP, ho, hv] at h
          · exact ⟨Nat.not_lt.mp ho, Nat.not_lt.mp hv,
              fun _ => ⟨p1, p2, by simp [hR], by simp [hP]⟩⟩

/-- A successfully resolved settings value is exactly one of the two
resolved records, depending on `-E`. -/
theorem create_settings_ok_cases (ms : ArgMatches) (env : Env) (s : PySettings)
    (h : create_settings ms env = .ok s) :
    (ms.ignoreEnvironmentFlag = true ∧ s = resolvedIgnore ms)
      ∨ (ms.ignoreEnvironmentFlag = false ∧
          ∃ p1 p2, get_paths env "RUSTPYTHONPATH" = .ok p1
            ∧ get_paths env "PYTHONPATH" = .ok p2
            ∧ s = resolvedWithEnv ms env p1 p2) := by
  obtain ⟨ho, hv, hpaths⟩ := create_settings_ok_inv ms env s h
  by_cases hi : ms.ignoreEnvironmentFlag = true
  · left
    refine ⟨hi, ?_⟩
    have hmaster := create_settings_ignore ms env hi ho hv
    rw [h] at hmaster
    exact Except.ok.inj hmaster
  · have hi' : ms.ignoreEnvironmentFlag = false := by
      revert hi; cases ms.ignoreEnvironmentFlag <;> simp
    obtain ⟨p1, p2, hp1, hp2⟩ := hpaths hi'
    right
    refine ⟨hi', p1, p2, hp1, hp2, ?_⟩
    have hmaster := create_settings_noignore ms env p1 p2 hi' hp1 hp2 ho hv
    rw [h] at hmaster
    exact Except.ok.inj hmaster

/-- C3: for every resolved setting among debug, inspect, noUserSite,
dontWriteBytecode, optimizeLevel and verboseLevel, an explicit CLI flag
takes precedence; otherwise, when the environment is not ignored, the
corresponding environment variable is consulted, with mere presence (any
value) counting as true for the boolean flags; otherwise the default is
used; and with `-E` no environment variable affects any setting, whatever
the environment holds. -/
theorem settings_cli_env_precedence (ms : ArgMatches) (env : Env) (s : PySettings)
    (h : create_settings ms env = .ok s) :
    (((ms.debugFlag = true → s.debug = true)
        ∧ (ms.debugFlag = false → ms.ignoreEnvironmentFlag = false →
            s.debug = env.flagPresent "PYTHONDEBUG")
        ∧ (ms.debugFlag = false → ms.ignoreEnvironmentFlag = true → s.debug = false))
      ∧ ((ms.inspectFlag = true → s.inspect = true)
        ∧ (ms.inspectFlag = false → ms.ignoreEnvironmentFlag = false →
            s.inspect = env.flagPresent "PYTHONINSPECT")
        ∧ (ms.inspectFlag = false → ms.ignoreEnvironmentFlag = true → s.inspect = false))
      ∧ ((ms.noUserSiteFlag = true → s.no_user_site = true)
        ∧ (ms.noUserSiteFlag = false → ms.ignoreEnvironmentFlag = false →
            s.no_user_site = env.flagPresent "PYTHONNOUSERSITE")
        ∧ (ms.noUserSiteFlag = false → ms.ignoreEnvironmentFlag = true →
            s.no_user_site = false))
      ∧ ((ms.dontWriteBytecodeFlag = true → s.dont_write_bytecode = true)
        ∧ (ms.dontWriteBytecodeFlag = false → ms.ignoreEnvironmentFlag = false →
            s.dont_write_bytecode = env.flagPresent "PYTHONDONTWRITEBYTECODE")
        ∧ (ms.dontWriteBytecodeFlag = false → ms.ignoreEnvironmentFlag = true →
            s.dont_write_bytecode = false))
      ∧ ((0 < ms.optimizeOccurrences → s.optimize = ms.optimizeOccurrences)
        ∧ (ms.optimizeOccurrences = 0 → ms.ignoreEnvironmentFlag = false →
            s.optimize =
              match get_env_var_value env "PYTHONOPTIMIZE" with
              | .ok value => value
              | .error _ => 0)
        ∧ (ms.optimizeOccurrences = 0 → ms.ignoreEnvironmentFlag = true → s.optimize = 0))
      ∧ ((0 < ms.verboseOccurrences → s.verbose = ms.verboseOccurrences)
        ∧ (ms.verboseOccurrences = 0 → ms.ignoreEnvironmentFlag = false →
            s.verbose =
              match get_env_var_value env "PYTHONVERBOSE" with
              | .ok value => value
              | .error _ => 0)
        ∧ (ms.verboseOccurrences = 0 → ms.ignoreEnvironmentFlag = true → s.verbose = 0)))
    ∧ (ms.ignoreEnvironmentFlag = true → ∀ env2, create_settings ms env2 = .ok s) := by
  constructor
  · rcases create_settings_ok_cases ms env s h with ⟨hig, rfl⟩ | ⟨hig, p1, p2, hp1, hp2, rfl⟩
    · refine ⟨⟨?_, ?_, ?_⟩, ⟨?_, ?_, ?_⟩, ⟨?_, ?_, ?_⟩, ⟨?_, ?_, ?_⟩, ⟨?_, ?_, ?_⟩,
        ⟨?_, ?_, ?_⟩⟩ <;> intros <;> simp_all [resolvedIgnore]
    · refine ⟨⟨?_, ?_, ?_⟩, ⟨?_, ?_, ?_⟩, ⟨?_, ?_, ?_⟩, ⟨?_, ?_, ?_⟩, ⟨?_, ?_, ?_⟩,
        ⟨?_, ?_, ?_⟩⟩ <;> intros <;> simp_all [resolvedWithEnv]
  · intro hig env2
    obtain ⟨ho, hv, -⟩ := create_settings_ok_inv ms env s h
    have hm1 := create_settings_ignore ms env hig ho hv
    have hm2 := create_settings_ignore ms env2 hig ho hv
    rw [h] at hm1
    rw [hm2]
    exact hm1.symm

/-- C3 witness: for `msPlain` (no CLI flags, environment consulted) and
`envSample` (PYTHONDEBUG present), the resolved debug flag is true. -/
theorem settings_cli_env_precedence_witness : settingsSample.debug = true := by
  have h := settings_cli_env_precedence msPlain envSample settingsSample (by decide)
  have hd := h.1.1.2.1 rfl rfl
  simpa [envSample] using hd

/-- C8: for optimizeLevel and verboseLevel, when no CLI occurrence is
given, the environment is not ignored and the variable is set, the
resolved value is the variable's value parsed as an unsigned integer,
and whenever that parse fails the resolved value is exactly 1, never an
error. -/
theorem env_int_tolerant_parse (ms : ArgMatches) (env : Env) (s : PySettings)
    (hi : ms.ignoreEnvironmentFlag = false)
    (h : create_settings ms env = .ok s) :
    (∀ v, ms.optimizeOccurrences = 0 → env.intVar "PYTHONOPTIMIZE" = some v →
        s.optimize = (u8FromStr v).getD 1 ∧ (u8FromStr v = none → s.optimize = 1))
  ∧ (∀ v, ms.verboseOccurrences = 0 → env.intVar "PYTHONVERBOSE" = some v →
        s.verbose = (u8FromStr v).getD 1 ∧ (u8FromStr v = none → s.verbose = 1)) := by
  rcases create_settings_ok_cases ms env s h with ⟨hig, rfl⟩ | ⟨hig, p1, p2, hp1, hp2, rfl⟩
  · exact Bool.noConfusion (hig.symm.trans hi)
  · constructor
    · intro v h0 hv
      refine ⟨by simp [resolvedWithEnv, h0, get_env_var_value, hv], fun hn => ?_⟩
      simp [resolvedWithEnv, h0, get_env_var_value, hv, hn]
    · intro v h0 hv
      refine ⟨by simp [resolvedWithEnv, h0, get_env_var_value, hv], fun hn => ?_⟩
      simp [resolvedWithEnv, h0, get_env_var_value, hv, hn]

/-- C8 witness: with `PYTHONOPTIMIZE=abc` (malformed) the resolved
optimize level is exactly 1. -/
theorem env_int_tolerant_parse_witness : settingsSample.optimize = 1 := by
  have h := env_int_tolerant_parse msPlain envSample settingsSample rfl (by decide)
  exact (h.1 "abc" rfl (by decide)).2 (by decide)

/-- C9: every resolved pathList starts with the empty string; entries from
the environment are appended only when the environment is not ignored, in
the order RUSTPYTHONPATH then PYTHONPATH; with `-E` no environment-derived
entries are appended. -/
theorem path_list_shape (ms : ArgMatches) (env : Env) (s : PySettings)
    (h : create_settings ms env = .ok s) :
    s.path_list.head? = some ""
  ∧ (ms.ignoreEnvironmentFlag = true → s.path_list = [""])
  ∧ (ms.ignoreEnvironmentFlag = false →
      ∀ p1 p2, get_paths env "RUSTPYTHONPATH" = .ok p1 → get_paths env "PYTHONPATH" = .ok p2 →
        s.path_list = "" :: (p1 ++ p2)) := by
  rcases create_settings_ok_cases ms env s h with ⟨hig, rfl⟩ | ⟨hig, p1, p2, hp1, hp2, rfl⟩
  · exact ⟨by simp [resolvedIgnore], fun _ => by simp [resolvedIgnore],
      fun hcon => Bool.noConfusion (hig.symm.trans hcon)⟩
  · refine ⟨by simp [resolvedWithEnv], fun hcon => Bool.noConfusion (hcon.symm.trans hig), ?_⟩
    intro _ q1 q2 hq1 hq2
    rw [hp1] at hq1
    rw [hp2] at hq2
    obtain rfl := Except.ok.inj hq1
    obtain rfl := Except.ok.inj hq2
    simp [resolvedWithEnv]

/-- C9 witness: for `msPlain` and `envSample` the resolved pathList is the
empty string followed by the RUSTPYTHONPATH entry then the PYTHONPATH
entries. -/
theorem path_list_shape_witness : settingsSample.path_list = ["", "/a", "/b", "/c"] := by
  have h := path_list_shape msPlain envSample settingsSample (by decide)
  have h3 := h.2.2 rfl ["/a"] ["/b", "/c"] (by decide) (by decide)
  simpa using h3

/-- C4: exactly one execution mode is selected per launch, with precedence
Command over Module over Script over Interactive, and — the three source
arguments being mutually exclusive on the CLI surface — the argv stored in
settings matches the to-be-selected mode: positional values verbatim for
script mode, the placeholder token then the trailing values for module
mode, the `-c` token then the trailing values for command mode, and empty
for interactive mode. -/
theorem mode_selection_and_argv (ms : ArgMatches)
    (hcm : ms.c = none ∨ ms.m = none)
    (hcs : ms.c = none ∨ ms.script = none)
    (hms : ms.m = none ∨ ms.script = none) :
    (∀ x rest, ms.c = some (x, rest) → selectMode ms = .command x)
  ∧ (∀ x rest, ms.c = none → ms.m = some (x, rest) → selectMode ms = .module x)
  ∧ (∀ x rest, ms.c = none → ms.m = none → ms.script = some (x, rest) →
      selectMode ms = .script x)
  ∧ (ms.c = none → ms.m = none → ms.script = none → selectMode ms = .interactive)
  ∧ (∀ x, selectMode ms = .command x →
      ∃ rest, ms.c = some (x, rest) ∧ resolve_argv ms = "-c" :: rest)
  ∧ (∀ x, selectMode ms = .module x →
      ∃ rest, ms.m = some (x, rest) ∧ resolve_argv ms = "PLACEHOLDER" :: rest)
  ∧ (∀ x, selectMode ms = .script x →
      ∃ rest, ms.script = some (x, rest) ∧ resolve_argv ms = x :: rest)
  ∧ (selectMode ms = .interactive → resolve_argv ms = []) := by
  rcases hc : ms.c with _ | ⟨cx, cr⟩ <;> rcases hm : ms.m with _ | ⟨mx, mr⟩ <;>
    rcases hs : ms.script with _ | ⟨sx, sr⟩ <;>
    simp_all [selectMode, resolve_argv]

/-- C4 witness: with `-c "print(1)" tail` the selected mode is command
mode and the stored argv is the `-c` token followed by the trailing
value. -/
theorem mode_selection_and_argv_witness :
    selectMode msCommand = .command "print(1)" ∧ resolve_argv msCommand = ["-c", "tail"] := by
  have h := mode_selection_and_argv msCommand (Or.inr rfl) (Or.inr rfl) (Or.inl rfl)
  refine ⟨h.1 "print(1)" ["tail"] rfl, ?_⟩
  obtain ⟨rest, hrest, hargv⟩ := h.2.2.2.2.1 "print(1)" (h.1 "print(1)" ["tail"] rfl)
  have : rest = ["tail"] := by
    have := (Option.some.inj hrest)
    simpa [msCommand, msPlain] using congrArg Prod.snd this.symm
  rw [hargv, this]

/-- C7 (amended): an environment-derived path-list segment that cannot be
decoded as valid text makes settings resolution abort the process by a
`panic!` before any execution — the abort is an unwinding panic, not a
`process::exit(1)`, so its exit status is the Rust panic status rather
than an explicitly chosen 1. -/
theorem undecodable_path_aborts (ms : ArgMatches) (env : Env)
    (hi : ms.ignoreEnvironmentFlag = false) :
    (∀ segs, env.pathVar "RUSTPYTHONPATH" = some segs → none ∈ segs →
        launch ms env =
          .abortedBeforeExecution (.panicked "RUSTPYTHONPATH isn't valid unicode"))
  ∧ (∀ segs p1, env.pathVar "PYTHONPATH" = some segs → none ∈ segs →
        get_paths env "RUSTPYTHONPATH" = .ok p1 →
        launch ms env =
          .abortedBeforeExecution (.panicked "PYTHONPATH isn't valid unicode"))
  ∧ (∀ a, launch ms env = .abortedBeforeExecution a → ∀ c, a ≠ .exit c) := by
  refine ⟨?_, ?_, ?_⟩
  · intro segs hvar hbad
    have hgp : get_paths env "RUSTPYTHONPATH" = .error (.invalidUnicode "RUSTPYTHONPATH") := by
      simp [get_paths, hvar, decodeSegments_error _ _ hbad]
    simp [launch, create_settings, hi, hgp, settingsPanicMessage]
  · intro segs p1 hvar hbad hp1
    have hgp : get_paths env "PYTHONPATH" = .error (.invalidUnicode "PYTHONPATH") := by
      simp [get_paths, hvar, decodeSegments_error _ _ hbad]
    simp [launch, create_settings, hi, hp1, hgp, settingsPanicMessage]
  · intro a ha c
    revert ha
    unfold launch
    rcases hres : create_settings ms env with e | s
    · intro ha
      obtain rfl := (MainOutcome.abortedBeforeExecution.inj ha).symm
      simp
    · intro ha
      exact MainOutcome.noConfusion ha

/-- C7 witness: at a concrete undecodable RUSTPYTHONPATH segment, the
launcher aborts with the unicode panic and not with any explicit exit. -/
theorem undecodable_path_aborts_witness :
    launch msPlain envBadPath =
      .abortedBeforeExecution (.panicked "RUSTPYTHONPATH isn't valid unicode") := by
  have h := undecodable_path_aborts msPlain envBadPath rfl
  exact h.1 [some "/lib", none] (by decide) (by decide)

/-- C7 counterexample: the claim says this fatal condition carries process
exit status 1; at the same concrete input the abort is a panic, not a
`process::exit(1)`. -/
theorem undecodable_path_exit_code_cex :
    launch msPlain envBadPath ≠ .abortedBeforeExecution (.exit 1)
  ∧ launch msPlain envBadPath =
      .abortedBeforeExecution (.panicked "RUSTPYTHONPATH isn't valid unicode") := by
  exact ⟨by decide, by decide⟩

/-- C5: script dispatch uses a regular file directly; a directory is
searched for `__main__.py`, whose absence is a fatal exit-1 error distinct
from the nonexistent-path fatal exit-1 error (the two messages are
distinguishable for all paths); and on successful resolution the resolved
file's containing directory is prepended to the front of the module
search path exactly once before execution, never reverted. -/
theorem run_script_resolution (pm : PathModel) (fs : FileSystem) (sysPath : List String)
    (p : String) :
    (fs.is_file p = false → fs.is_dir p = true →
        fs.is_file (pm.join p "__main__.py") = false →
        run_script pm fs sysPath p = .fatal 1 (cantFindMainMsg p))
  ∧ (fs.is_file p = false → fs.is_dir p = false →
        run_script pm fs sysPath p = .fatal 1 (cantOpenMsg p))
  ∧ (∀ a b, cantFindMainMsg a ≠ cantOpenMsg b)
  ∧ (∀ sp rp src, run_script pm fs sysPath p = .ran sp rp src →
        sp = pm.parent rp :: sysPath) := by
  refine ⟨?_, ?_, script_error_messages_distinct, ?_⟩
  · intro h1 h2 h3
    simp [run_script, h1, h2, h3]
  · intro h1 h2
    simp [run_script, h1, h2]
  · intro sp rp src h
    cases hf : fs.is_file p with
    | true =>
      rcases hr : fs.read_file p with e | source
      · simp [run_script, hf, hr] at h
      · simp [run_script, hf, hr] at h
        obtain ⟨h1, h2, h3⟩ := h
        subst h1; subst h2; rfl
    | false =>
      cases hd : fs.is_dir p with
      | true =>
        cases hm2 : fs.is_file (pm.join p "__main__.py") with
        | true =>
          rcases hr : fs.read_file (pm.join p "__main__.py") with e | source
          · simp [run_script, hf, hd, hm2, hr] at h
          · simp [run_script, hf, hd, hm2, hr] at h
            obtain ⟨h1, h2, h3⟩ := h
            subst h1; subst h2; rfl
        | false => simp [run_script, hf, hd, hm2] at h
      | false => simp [run_script, hf, hd] at h

/-- C5 witness: the directory `d` lacking `__main__.py` and the
nonexistent path `nope` both exit fatally with code 1 and their two
distinct messages. -/
theorem run_script_resolution_witness :
    run_script pmSample fsSample [] "d" = .fatal 1 (cantFindMainMsg "d")
  ∧ run_script pmSample fsSample [] "nope" = .fatal 1 (cantOpenMsg "nope") := by
  have h := run_script_resolution pmSample fsSample [] "d"
  have h2 := run_script_resolution pmSample fsSample [] "nope"
  exact ⟨h.1 (by decide) (by decide) (by decide), h2.2.1 (by decide) (by decide)⟩

/-- C1 counterexample: in `Continuation` with buffer `"if True:\n"`, the
successfully read non-empty line is appended to the buffer (plus a
newline), yet the accumulated buffer is NOT submitted to the incremental
compiler — the loop body short-circuits with `continue` — contradicting
the claim that every successfully read line leads to a compile attempt on
the accumulated buffer. -/
theorem continuation_line_not_compiled_cex :
    (shell_step vmEof stContinuing (.line "    x = 1")).compiled = none
  ∧ (shell_step vmEof stContinuing (.line "    x = 1")).state.input
      = "if True:\n    x = 1\n" := by
  exact ⟨by decide, by decide⟩

/-- C1 (amended): after the line plus a trailing newline is appended to
the buffer — and the state forced to Fresh when the just-read line is
empty during a continuation — the accumulated buffer is submitted to the
incremental compiler exactly when the session is then Fresh; a non-empty
line read in `Continuation` only accumulates and loops again with no
compile attempt; and whenever a compile attempt reports incomplete input
and the just-read line was non-empty, the session transitions to
`Continuation`, leaves the buffer intact, executes nothing, reports
nothing and loops again. -/
theorem repl_compile_submission (vm : VM) (st : ShellState) (line buf : String)
    (r : IterResult)
    (hbuf : buf = (if st.input.isEmpty then line else st.input ++ line) ++ "\n")
    (hr : r = shell_step vm st (.line line)) :
    ((st.continuing = false ∨ line.isEmpty = true) → r.compiled = some buf)
  ∧ (st.continuing = true → line.isEmpty = false →
      r.compiled = none ∧ r.ran = none ∧ r.action = .next
        ∧ r.state.input = buf ∧ r.state.continuing = true)
  ∧ ((st.continuing = false ∨ line.isEmpty = true) → line.isEmpty = false →
      vm.compile buf = .eofError →
      r.state.continuing = true ∧ r.state.input = buf ∧ r.ran = none
        ∧ r.reported = none ∧ r.action = .next) := by
  subst hbuf hr
  refine ⟨?_, ?_, ?_⟩
  · intro hfresh
    have hcond : (st.continuing && !line.isEmpty) = false := by
      rcases hfresh with hc | hl
      · simp [hc]
      · simp [hl]
    rcases hx : (shell_exec vm ((if st.input.isEmpty then line else st.input ++ line) ++ "\n")
        st.scope).result with _ | e | _ <;>
      simp [shell_step, hcond, hx]
  · intro hc hl
    simp [shell_step, hc, hl]
  · intro hfresh hl hcompile
    have hc : st.continuing = false := by
      rcases hfresh with hc | hl2
      · exact hc
      · rw [hl2] at hl; exact Bool.noConfusion hl
    simp [shell_step, shell_exec, hc, hl, hcompile]

/-- C1 witness: from Fresh, the incomplete line `if True:` is submitted,
the compiler reports incomplete input, and the session enters
`Continuation` with the buffer intact. -/
theorem repl_compile_submission_witness :
    (shell_step vmEof stFresh (.line "if True:")).state.continuing = true := by
  have h := repl_compile_submission vmEof stFresh "if True:" "if True:\n"
    (shell_step vmEof stFresh (.line "if True:")) (by decide) rfl
  exact (h.2.2 (Or.inl rfl) (by decide) rfl).1

/-- C2: every terminal outcome of a REPL iteration — successful execution,
syntax error, runtime exception, or an interrupt during the blocking
read — clears the input buffer and returns the session to Fresh; the
failure (or the synthesized KeyboardInterrupt) is reported without
terminating the loop; and a successful execution whose value is not the
None sentinel first binds the value under the fixed name `_` in the
persistent session scope. -/
theorem repl_terminal_outcomes (vm : VM) (st : ShellState) (line buf : String)
    (r : IterResult)
    (hfresh : st.continuing = false ∨ line.isEmpty = true)
    (hbuf : buf = (if st.input.isEmpty then line else st.input ++ line) ++ "\n")
    (hr : r = shell_step vm st (.line line)) :
    (∀ code value scope1, vm.compile buf = .ok code →
        vm.run_code_obj code st.scope = (.ok value, scope1) →
        r.state.input = "" ∧ r.state.continuing = false ∧ r.action = .next
          ∧ r.reported = none
          ∧ (value ≠ PyValue.none → r.state.scope = ("_", value) :: scope1)
          ∧ (value = PyValue.none → r.state.scope = scope1))
  ∧ (∀ code exc scope1, vm.compile buf = .ok code →
        vm.run_code_obj code st.scope = (.err exc, scope1) →
        r.state.input = "" ∧ r.state.continuing = false ∧ r.action = .next
          ∧ r.reported = some exc)
  ∧ (∀ err, vm.compile buf = .otherError err →
        r.state.input = "" ∧ r.state.continuing = false ∧ r.action = .next
          ∧ r.reported = some (vm.new_syntax_error err))
  ∧ (∀ r2, r2 = shell_step vm st .interrupted →
        r2.state.input = "" ∧ r2.state.continuing = false ∧ r2.action = .next
          ∧ r2.reported = some vm.keyboard_interrupt) := by
  have hcond : (st.continuing && !line.isEmpty) = false := by
    rcases hfresh with hc | hl
    · simp [hc]
    · simp [hl]
  subst hbuf hr
  refine ⟨?_, ?_, ?_, ?_⟩
  · intro code value scope1 hcomp hrun
    by_cases hv : value = PyValue.none
    · subst hv
      simp [shell_step, shell_exec, hcond, hcomp, hrun]
    · simp [shell_step, shell_exec, hcond, hcomp, hrun, hv, Scope.set_item]
  · intro code exc scope1 hcomp hrun
    simp [shell_step, shell_exec, hcond, hcomp, hrun]
  · intro err hcomp
    simp [shell_step, shell_exec, hcond, hcomp]
  · intro r2 hr2
    subst hr2
    simp [shell_step]

/-- C2 witness: a statement that runs to the non-None value 2 ends the
iteration Fresh with an empty buffer, nothing reported, and the value
bound under `_` in the session scope. -/
theorem repl_terminal_outcomes_witness :
    (shell_step vmVal stFresh (.line "1 + 1")).state.scope = [("_", PyValue.val 2)]
  ∧ (shell_step vmVal stFresh (.line "1 + 1")).state.input = "" := by
  have h := repl_terminal_outcomes vmVal stFresh "1 + 1" "1 + 1\n"
    (shell_step vmVal stFresh (.line "1 + 1")) (Or.inl rfl) (by decide) rfl
  have h1 := h.1 7 (PyValue.val 2) [] rfl rfl
  exact ⟨by simpa using h1.2.2.2.2.1 (by decide), h1.1⟩

/-- C6 counterexample: a concrete session that ends with end-of-input and
whose history save fails: `save_history(..).unwrap()` panics, so the
process dies instead of returning normally — persisting the history is
fatal on failure, while the claim says it is non-fatal to the process. -/
theorem history_save_failure_fatal_cex :
    (run_shell vmEof histSaveFail [] [.endOfInput]).2 = none
  ∧ ShellEffect.panicked ∈ (run_shell vmEof histSaveFail [] [.endOfInput]).1 := by
  exact ⟨by decide, by decide⟩

/-- C6 (amended): an end-of-input signal terminates the interactive loop
immediately (later reader events are never consumed), after which the
history is persisted to its backing file; loading history at session
start is best-effort — a load failure merely prints a notice and the
session proceeds — but a failure to persist panics the process: it is
fatal, unlike what the claim states. -/
theorem shell_shutdown_behavior (vm : VM) (hist : HistorySink) (scope : Scope)
    (st : ShellState) (events rest : List ReadlineEvent)
    (hp : hist.path_exists = true) :
    run_loop vm st (.endOfInput :: rest) = (st, [])
  ∧ (hist.save_ok = true →
      (run_shell vm hist scope events).2 =
        some (run_loop vm { input := "", continuing := false, scope := scope, history := [] }
          events).1)
  ∧ (hist.save_ok = false →
      (run_shell vm hist scope events).2 = none
        ∧ (run_shell vm hist scope events).1 =
            ShellEffect.printWelcomeBanner ::
              ((if hist.load_ok then [] else [ShellEffect.printNoPreviousHistory])
                ++ (run_loop vm
                      { input := "", continuing := false, scope := scope, history := [] }
                      events).2
                ++ [ShellEffect.panicked]))
  ∧ (hist.load_ok = false → hist.save_ok = true →
      (run_shell vm hist scope events).1 =
        ShellEffect.printWelcomeBanner :: ShellEffect.printNoPreviousHistory ::
          (run_loop vm { input := "", continuing := false, scope := scope, history := [] }
            events).2) := by
  refine ⟨?_, ?_, ?_, ?_⟩
  · simp [run_loop, shell_step, iterEffects]
  · intro hs
    simp [run_shell, hp, hs]
  · intro hs
    constructor <;> simp [run_shell, hp, hs]
  · intro hl hs
    simp [run_shell, hp, hl, hs]

/-- C6 witness: end-of-input as the first reader event ends the session at
once and, the save succeeding, `run_shell` returns normally with the
initial state. -/
theorem shell_shutdown_behavior_witness :
    (run_shell vmEof histOk [] [.endOfInput]).2 =
      some { input := "", continuing := false, scope := [], history := [] } := by
  have h := shell_shutdown_behavior vmEof histOk [] stFresh [.endOfInput] [] rfl
  have h2 := h.2.1 rfl
  rw [h2]
  decide

/-- C10 (code bug): `-q` sets the quiet flag in the resolved settings, but
the interactive session prints its welcome banner unconditionally — the
banner is the first effect of `run_shell` for every collaborator, history
sink, scope and reader script, so the startup is never quiet. -/
theorem quiet_banner_not_suppressed (ms : ArgMatches) (env : Env) (s : PySettings)
    (vm : VM) (hist : HistorySink) (scope : Scope) (events : List ReadlineEvent)
    (hq : ms.quietFlag = true)
    (h : create_settings ms env = .ok s) :
    s.quiet = true
  ∧ (run_shell vm hist scope events).1.head? = some ShellEffect.printWelcomeBanner := by
  constructor
  · rcases create_settings_ok_cases ms env s h with ⟨hig, rfl⟩ | ⟨hig, p1, p2, hp1, hp2, rfl⟩
    · simp [resolvedIgnore, hq]
    · simp [resolvedWithEnv, hq]
  · unfold run_shell
    by_cases hc : (!hist.path_exists && hist.has_parent && !hist.create_dir_ok) = true
    · simp [hc]
    · simp only [Bool.not_eq_true] at hc
      simp only [hc, Bool.false_eq_true, if_false]
      by_cases hs : hist.save_ok = true <;> simp [hs]

/-- C10 witness: with only `-q` given the resolved settings are quiet, yet
the first effect of the interactive session is the welcome banner. -/
theorem quiet_banner_not_suppressed_witness :
    settingsQuietSample.quiet = true
  ∧ (run_shell vmEof histOk [] [.endOfInput]).1.head?
      = some ShellEffect.printWelcomeBanner :=
  quiet_banner_not_suppressed msQuiet envSample settingsQuietSample vmEof histOk []
    [.endOfInput] rfl (by decide)

end RustPython
